import Mathlib

/-!
Verification of the format-eligibility and conversion logic of
`label_studio/ai_center/converter.py` (class `AiCenterConverter`).

The Python module extends the label-studio SDK `Format` enumeration with one
extra member `PULC`, selects which export formats a project schema supports
(`_get_supported_formats`), and converts records either via the library or
via the custom PULC serializer (`convert`, `convert_to_pulc`).

Machine-level conventions of the shallow embedding:
* Python sets of strings are lists queried by membership (`setAdd` mirrors
  `set.add`: it inserts only when absent).
* Python `list.remove` is `List.erase` (both drop the first occurrence).
* Loops become structural recursion / `List.foldl` in statement order.
* Log calls become explicit `Diagnostic` values carrying their level.
* Filesystem actions become an explicit `Effect` trace; an exception raised
  before an action simply means the action never enters the trace.
-/

set_option autoImplicit false

namespace AiCenter

/-- The extended enumeration: `AiCenterFormat = Enum('AiCenterFormat',
list(Format.__members__) + ['PULC'])` (converter.py line 8).  The SDK
`Format` enumeration itself is library code outside `src/`; its member
order is modelled from the spec and from the `_FORMAT_INFO` table of this
repository (converter.py lines 22-106), which lists the built-in members
in declaration order followed by `PULC`. -/
inductive AiCenterFormat where
  | JSON
  | JSON_MIN
  | CSV
  | TSV
  | CONLL2003
  | COCO
  | VOC
  | YOLO
  | YOLO_OBB
  | BRUSH_TO_NUMPY
  | BRUSH_TO_PNG
  | ASR_MANIFEST
  | PULC
  deriving DecidableEq, Repr

/-- `member.name` of the Python enumeration. -/
def formatName : AiCenterFormat → String
  | .JSON => "JSON"
  | .JSON_MIN => "JSON_MIN"
  | .CSV => "CSV"
  | .TSV => "TSV"
  | .CONLL2003 => "CONLL2003"
  | .COCO => "COCO"
  | .VOC => "VOC"
  | .YOLO => "YOLO"
  | .YOLO_OBB => "YOLO_OBB"
  | .BRUSH_TO_NUMPY => "BRUSH_TO_NUMPY"
  | .BRUSH_TO_PNG => "BRUSH_TO_PNG"
  | .ASR_MANIFEST => "ASR_MANIFEST"
  | .PULC => "PULC"

/-- Iteration order of the enumeration (`for f in AiCenterFormat`). -/
def allFormats : List AiCenterFormat :=
  [.JSON, .JSON_MIN, .CSV, .TSV, .CONLL2003, .COCO, .VOC, .YOLO, .YOLO_OBB,
   .BRUSH_TO_NUMPY, .BRUSH_TO_PNG, .ASR_MANIFEST, .PULC]

/-- `all_formats = [f.name for f in AiCenterFormat]` (converter.py line 163). -/
def allFormatNames : List String := allFormats.map formatName

/-- One input tag of a schema entry: `{type, valueType?, valueList?}`.
`valueList` models the truthiness of `input_tag.get("valueList")`. -/
structure InputTag where
  type : String
  valueType : Option String
  valueList : Bool
  deriving DecidableEq, Repr

/-- One value of `self._schema`: an output tag's `type` and its `inputs`. -/
structure OutputInfo where
  type : String
  inputs : List InputTag
  deriving DecidableEq, Repr

/-- `self._schema.values()` in iteration order. -/
abbrev Schema := List OutputInfo

/-- Level of a logger call; the source uses `logger.error` (line 159). -/
inductive LogLevel where
  | error
  | warning
  deriving DecidableEq, Repr

/-- A diagnostic emitted through the logging sink. -/
structure Diagnostic where
  level : LogLevel
  msg : String
  deriving DecidableEq, Repr

/-- The diagnostic `logger.error('valueType="url" are not supported for text
inputs')` of converter.py line 159. -/
def urlDiag : Diagnostic :=
  ⟨LogLevel.error, "valueType=\"url\" are not supported for text inputs"⟩

/-- `set.add`: insert a string only when it is not already present. -/
def setAdd (l : List String) (x : String) : List String :=
  if l.contains x then l else l ++ [x]

/-- State threaded through the classification loop of
`_get_supported_formats` (converter.py lines 142, 151-161). -/
structure ClassifyState where
  output_tag_types : List String
  input_tag_types : List String
  is_mig : Bool
  diags : List Diagnostic
  deriving DecidableEq, Repr

/-- `input_tag["type"] == "Text" and input_tag.get("valueType") == "url"`
(converter.py line 158). -/
def isSkippedInput (i : InputTag) : Bool :=
  i.type == "Text" && i.valueType == some "url"

/-- Body of the inner loop over `info["inputs"]` (converter.py lines
155-161): a truthy `valueList` sets `is_mig`; a Text input with
`valueType="url"` logs an error and is skipped; otherwise the input's type
is added to `input_tag_types`. -/
def classifyInput (st : ClassifyState) (i : InputTag) : ClassifyState :=
  let st1 := if i.valueList then { st with is_mig := true } else st
  if isSkippedInput i then
    { st1 with diags := st1.diags ++ [urlDiag] }
  else
    { st1 with input_tag_types := setAdd st1.input_tag_types i.type }

/-- Body of the outer loop over `self._schema.values()` (converter.py lines
153-161): add the entry's `type` to `output_tag_types`, then walk its
inputs. -/
def classifyOutput (st : ClassifyState) (o : OutputInfo) : ClassifyState :=
  o.inputs.foldl classifyInput
    { st with output_tag_types := setAdd st.output_tag_types o.type }

/-- The classification pass of `_get_supported_formats` (converter.py lines
142, 151-161), run on the schema with the initial empty state. -/
def classify (s : Schema) : ClassifyState :=
  s.foldl classifyOutput ⟨[], [], false, []⟩

/-- Removal condition of CONLL2003 (converter.py lines 164-165). -/
def conllCond (inT outT : List String) : Bool :=
  !(inT.contains "Text" && outT.contains "Labels")

/-- Removal condition of VOC (converter.py lines 166-174); Python `and`
binds tighter than `or`, exactly as Lean `&&` over `||`. -/
def vocCond (inT outT : List String) (isMig : Bool) : Bool :=
  isMig || !(inT.contains "Image" &&
    (outT.contains "RectangleLabels" ||
      outT.contains "Rectangle" && outT.contains "Labels"))

/-- Removal condition of COCO and YOLO (converter.py lines 175-187). -/
def cocoCond (inT outT : List String) (isMig : Bool) : Bool :=
  isMig || !(inT.contains "Image" &&
      (outT.contains "RectangleLabels" || outT.contains "PolygonLabels") ||
    outT.contains "Rectangle" && outT.contains "Labels" ||
    outT.contains "PolygonLabels" && outT.contains "Labels")

/-- Removal condition of the brush formats (converter.py lines 188-198). -/
def brushCond (inT outT : List String) : Bool :=
  !(inT.contains "Image" &&
    (outT.contains "BrushLabels" || outT.contains "brushlabels" ||
      outT.contains "Brush" && outT.contains "Labels"))

/-- Removal condition of ASR_MANIFEST (converter.py lines 199-203). -/
def asrCond (inT outT : List String) : Bool :=
  !((inT.contains "Audio" || inT.contains "AudioPlus") &&
    outT.contains "TextArea")

/-- Removal condition of YOLO_OBB (converter.py lines 204-205). -/
def obbCond (inT outT : List String) (isMig : Bool) : Bool :=
  isMig || (inT.contains "Video" && outT.contains "TimelineLabels")

/-- The chain of conditional `all_formats.remove(...)` calls of
`_get_supported_formats` (converter.py lines 163-207), with the six removal
conditions abstracted as booleans. -/
def removeChain (c1 c2 c3 c4 c5 c6 : Bool) : List String :=
  let fs0 := allFormatNames
  let fs1 := if c1 then fs0.erase (formatName .CONLL2003) else fs0
  let fs2 := if c2 then fs1.erase (formatName .VOC) else fs1
  let fs3 := if c3 then
      (fs2.erase (formatName .COCO)).erase (formatName .YOLO) else fs2
  let fs4 := if c4 then
      (fs3.erase (formatName .BRUSH_TO_NUMPY)).erase (formatName .BRUSH_TO_PNG)
    else fs3
  let fs5 := if c5 then fs4.erase (formatName .ASR_MANIFEST) else fs4
  if c6 then fs5.erase (formatName .YOLO_OBB) else fs5

/-- The removal block of `_get_supported_formats` applied to the classified
tag-type sets (converter.py lines 163-207). -/
def applyRules (inT outT : List String) (isMig : Bool) : List String :=
  removeChain (conllCond inT outT) (vocCond inT outT isMig)
    (cocoCond inT outT isMig) (brushCond inT outT) (asrCond inT outT)
    (obbCond inT outT isMig)

/-- `AiCenterConverter._get_supported_formats` (converter.py lines 141-207):
with more than one data key it returns the five structural format names at
once; otherwise it classifies the schema and applies the removal rules. -/
def getSupportedFormats (dataKeys : List String) (s : Schema) : List String :=
  if dataKeys.length > 1 then
    [formatName .JSON, formatName .JSON_MIN, formatName .CSV,
     formatName .TSV, formatName .PULC]
  else
    let r := classify s
    applyRules r.input_tag_types r.output_tag_types r.is_mig

/-- The value of a record's `output["choice"]` field: a scalar string or a
list of strings. -/
inductive ChoiceValue where
  | scalar (s : String)
  | listVal (l : List String)
  deriving DecidableEq, Repr

/-- Modelled from the spec: `prettify_result` lives in
`label_studio_sdk.converter.utils`, outside `src/`.  The spec says a scalar
string passes through unchanged and a list-valued choice is flattened to a
single string by joining with a comma. -/
def prettify_result : ChoiceValue → String
  | .scalar s => s
  | .listVal l => String.intercalate "," l

/-- One annotation record at the shape `convert_to_pulc` reads (converter.py
line 136): `item["input"]["image"]` and `item["output"]["choice"]`. -/
structure AnnotationRecord where
  image : String
  choice : ChoiceValue
  deriving DecidableEq, Repr

/-- A filesystem or delegation action of the converter, in execution
order.  `delegate` stands for `super().convert(...)`, the library
serializer, whose own actions are out of scope. -/
inductive Effect where
  | ensureDir (dir : String)
  | writeFile (path : String) (contents : String)
  | delegate (format : String)
  deriving DecidableEq, Repr

/-- `AiCenterConverter.convert_to_pulc` (converter.py lines 129-139):
ensure the output directory, then write `result.txt` holding one line per
record, `<image>\t<prettified choice>`, newline-joined with no trailing
newline.  `os.path.join` is modelled as path concatenation with `/`; both
record iterators (`iter_from_dir`, `iter_from_json_file`) are library code
and are modelled as the record list they yield. -/
def convert_to_pulc (records : List AnnotationRecord) (output_dir : String) :
    List Effect :=
  let output_file := output_dir ++ "/" ++ "result.txt"
  let recordLines :=
    records.map (fun item => item.image ++ "\t" ++ prettify_result item.choice)
  [Effect.ensureDir output_dir,
   Effect.writeFile output_file (String.intercalate "\n" recordLines)]

/-- The `format` argument of `convert`: a string name or an already-resolved
enumeration member (any non-string value follows the same path; the member
is the representative non-string). -/
inductive FormatArg where
  | str (s : String)
  | enum (f : AiCenterFormat)
  deriving DecidableEq, Repr

/-- An exception escaping `convert`. `invalidFormat` is the
`ValueError(f"Invalid value: {s}")` of `from_string`; `unboundLocal` is
Python's `UnboundLocalError` from reading `_format` when the
`isinstance(format, str)` branch did not run. -/
inductive ConvertError where
  | invalidFormat (msg : String)
  | unboundLocal (name : String)
  deriving DecidableEq, Repr

/-- Outcome of a `convert` call: the actions performed before returning or
before the exception, and the exception if one was raised. -/
structure ConvertResult where
  effects : List Effect
  error : Option ConvertError
  deriving DecidableEq, Repr

/-- `from_string` (converter.py lines 11-18): `cls[s]` looks the name up
among the members; a `KeyError` becomes `ValueError(f"Invalid value: {s}")`. -/
def from_string (s : String) : Except String AiCenterFormat :=
  match allFormats.find? (fun f => formatName f == s) with
  | some f => Except.ok f
  | none => Except.error ("Invalid value: " ++ s)

/-- `AiCenterConverter.convert` (converter.py lines 121-127).  Only the
string branch assigns `_format`; the unconditional read of `_format` on
line 124 therefore raises `UnboundLocalError` for every non-string
argument.  A resolved `PULC` runs the custom serializer; every other
resolved format delegates to `super().convert`. -/
def convert (input_data : List AnnotationRecord) (output_data : String)
    (format : FormatArg) (is_dir : Bool) : ConvertResult :=
  match format with
  | .str s =>
    match from_string s with
    | .error m => ⟨[], some (ConvertError.invalidFormat m)⟩
    | .ok f =>
      if f = AiCenterFormat.PULC then
        ⟨convert_to_pulc input_data output_data, none⟩
      else
        ⟨[Effect.delegate (formatName f)], none⟩
  | .enum _ => ⟨[], some (ConvertError.unboundLocal "_format")⟩

/-- Modelled from the spec: the contents the spec prescribes for the custom
format, stated in the spec's own words for the refinement comparison in C3:
one line per record, `<image-field-value><TAB><prettified-choice-value>`,
lines newline-joined with no trailing newline. -/
def pulcSpecContents (records : List AnnotationRecord) : String :=
  String.intercalate "\n"
    (records.map (fun r =>
      r.image ++ "\t" ++
        (match r.choice with
         | .scalar s => s
         | .listVal l => String.intercalate "," l)))

/-- Names of the formats that some removal rule can erase (converter.py
lines 164-205). -/
def removableNames : List String :=
  [formatName .CONLL2003, formatName .VOC, formatName .COCO,
   formatName .YOLO, formatName .YOLO_OBB, formatName .BRUSH_TO_NUMPY,
   formatName .BRUSH_TO_PNG, formatName .ASR_MANIFEST]

/-- Keep-predicate equivalent of the removal chain, used only to reason
about `removeChain`. -/
def keepFormat (c1 c2 c3 c4 c5 c6 : Bool) (n : String) : Bool :=
  if n == formatName .CONLL2003 then !c1
  else if n == formatName .VOC then !c2
  else if n == formatName .COCO || n == formatName .YOLO then !c3
  else if n == formatName .BRUSH_TO_NUMPY || n == formatName .BRUSH_TO_PNG then !c4
  else if n == formatName .ASR_MANIFEST then !c5
  else if n == formatName .YOLO_OBB then !c6
  else true

/-- A schema with a single Text input declaring `valueType="url"`. -/
def urlSchema : Schema :=
  [⟨"Choices", [⟨"Text", some "url", false⟩]⟩]

/-- A schema with a skipped Text-url input next to an ordinary Image
input under the same output tag. -/
def urlMixedSchema : Schema :=
  [⟨"Choices", [⟨"Text", some "url", false⟩, ⟨"Image", none, false⟩]⟩]

/-- A schema with `output_tag_types = {"RectangleLabels"}`,
`input_tag_types = {"Image"}` and a list-valued input
(`is_multi_value_input = true`). -/
def migRectSchema : Schema :=
  [⟨"RectangleLabels", [⟨"Image", none, true⟩]⟩]

theorem mem_allFormats (f : AiCenterFormat) : f ∈ allFormats := by
  cases f <;> simp [allFormats]

theorem setAdd_mem (l : List String) (y x : String) :
    x ∈ setAdd l y ↔ x ∈ l ∨ x = y := by
  unfold setAdd
  by_cases h : l.contains y = true
  · rw [if_pos h]
    constructor
    · exact Or.inl
    · rintro (hx | rfl)
      · exact hx
      · exact List.elem_iff.mp h
  · rw [if_neg h]
    simp [List.mem_append]

theorem classifyInput_input_mem (st : ClassifyState) (i : InputTag)
    (x : String) :
    x ∈ (classifyInput st i).input_tag_types ↔
      x ∈ st.input_tag_types ∨ (isSkippedInput i = false ∧ i.type = x) := by
  cases hv : i.valueList <;> cases hs : isSkippedInput i <;>
    simp [classifyInput, hv, hs, setAdd_mem, eq_comm]

theorem classifyInput_diags (st : ClassifyState) (i : InputTag) :
    (classifyInput st i).diags =
      st.diags ++ (if isSkippedInput i then [urlDiag] else []) := by
  cases hv : i.valueList <;> cases hs : isSkippedInput i <;>
    simp [classifyInput, hv, hs]

theorem foldlInput_input_mem (l : List InputTag) (st : ClassifyState)
    (x : String) :
    x ∈ (l.foldl classifyInput st).input_tag_types ↔
      x ∈ st.input_tag_types ∨
        ∃ i ∈ l, isSkippedInput i = false ∧ i.type = x := by
  induction l generalizing st with
  | nil => simp
  | cons hd tl ih =>
      simp only [List.foldl_cons, ih, classifyInput_input_mem,
        List.exists_mem_cons_iff, or_assoc]

theorem foldlInput_diags_mono (l : List InputTag) (st : ClassifyState)
    (d : Diagnostic) (h : d ∈ st.diags) :
    d ∈ (l.foldl classifyInput st).diags := by
  induction l generalizing st with
  | nil => exact h
  | cons hd tl ih =>
      refine ih _ ?_
      rw [classifyInput_diags]
      exact List.mem_append_left _ h

theorem foldlInput_urlDiag (l : List InputTag) (st : ClassifyState)
    (h : ∃ i ∈ l, isSkippedInput i = true) :
    urlDiag ∈ (l.foldl classifyInput st).diags := by
  induction l generalizing st with
  | nil => simp at h
  | cons hd tl ih =>
      rcases h with ⟨i, hi, hsk⟩
      rcases List.mem_cons.mp hi with rfl | hitl
      · simp only [List.foldl_cons]
        refine foldlInput_diags_mono _ _ _ ?_
        rw [classifyInput_diags, hsk]
        simp
      · exact ih _ ⟨i, hitl, hsk⟩

theorem classifyOutput_input_mem (st : ClassifyState) (o : OutputInfo)
    (x : String) :
    x ∈ (classifyOutput st o).input_tag_types ↔
      x ∈ st.input_tag_types ∨
        ∃ i ∈ o.inputs, isSkippedInput i = false ∧ i.type = x := by
  unfold classifyOutput
  rw [foldlInput_input_mem]

theorem classifyOutput_diags_mono (st : ClassifyState) (o : OutputInfo)
    (d : Diagnostic) (h : d ∈ st.diags) :
    d ∈ (classifyOutput st o).diags := by
  exact foldlInput_diags_mono _ _ _ h

theorem classifyOutput_urlDiag (st : ClassifyState) (o : OutputInfo)
    (h : ∃ i ∈ o.inputs, isSkippedInput i = true) :
    urlDiag ∈ (classifyOutput st o).diags := by
  exact foldlInput_urlDiag _ _ h

theorem foldlOutput_input_mem (s : Schema) (st : ClassifyState) (x : String) :
    x ∈ (s.foldl classifyOutput st).input_tag_types ↔
      x ∈ st.input_tag_types ∨
        ∃ o ∈ s, ∃ i ∈ o.inputs, isSkippedInput i = false ∧ i.type = x := by
  induction s generalizing st with
  | nil => simp
  | cons hd tl ih =>
      simp only [List.foldl_cons, ih, classifyOutput_input_mem,
        List.exists_mem_cons_iff, or_assoc]

theorem classify_input_mem (s : Schema) (x : String) :
    x ∈ (classify s).input_tag_types ↔
      ∃ o ∈ s, ∃ i ∈ o.inputs, isSkippedInput i = false ∧ i.type = x := by
  unfold classify
  rw [foldlOutput_input_mem]
  simp

theorem foldlOutput_diags_mono (s : Schema) (st : ClassifyState)
    (d : Diagnostic) (h : d ∈ st.diags) :
    d ∈ (s.foldl classifyOutput st).diags := by
  induction s generalizing st with
  | nil => exact h
  | cons hd tl ih => exact ih _ (classifyOutput_diags_mono _ _ _ h)

theorem foldlOutput_urlDiag (s : Schema) (st : ClassifyState)
    (h : ∃ o ∈ s, ∃ i ∈ o.inputs, isSkippedInput i = true) :
    urlDiag ∈ (s.foldl classifyOutput st).diags := by
  induction s generalizing st with
  | nil => simp at h
  | cons hd tl ih =>
      rcases h with ⟨o, ho, hin⟩
      rcases List.mem_cons.mp ho with rfl | hotl
      · simp only [List.foldl_cons]
        exact foldlOutput_diags_mono _ _ _ (classifyOutput_urlDiag _ _ hin)
      · exact ih _ ⟨o, hotl, hin⟩

theorem classify_urlDiag (s : Schema)
    (h : ∃ o ∈ s, ∃ i ∈ o.inputs, isSkippedInput i = true) :
    urlDiag ∈ (classify s).diags :=
  foldlOutput_urlDiag s _ h

theorem removeChain_eq_filter :
    ∀ c1 c2 c3 c4 c5 c6, removeChain c1 c2 c3 c4 c5 c6 =
      allFormatNames.filter (keepFormat c1 c2 c3 c4 c5 c6) := by
  decide

theorem keepFormat_coco (c1 c2 c3 c4 c5 c6 : Bool) :
    keepFormat c1 c2 c3 c4 c5 c6 (formatName .COCO) = !c3 := rfl

theorem keepFormat_yolo (c1 c2 c3 c4 c5 c6 : Bool) :
    keepFormat c1 c2 c3 c4 c5 c6 (formatName .YOLO) = !c3 := rfl

theorem keepFormat_voc (c1 c2 c3 c4 c5 c6 : Bool) :
    keepFormat c1 c2 c3 c4 c5 c6 (formatName .VOC) = !c2 := rfl

theorem keepFormat_obb (c1 c2 c3 c4 c5 c6 : Bool) :
    keepFormat c1 c2 c3 c4 c5 c6 (formatName .YOLO_OBB) = !c6 := rfl

theorem getSupportedFormats_single (dataKeys : List String) (s : Schema)
    (h : ¬ dataKeys.length > 1) :
    getSupportedFormats dataKeys s =
      applyRules (classify s).input_tag_types (classify s).output_tag_types
        (classify s).is_mig := by
  unfold getSupportedFormats
  rw [if_neg h]

theorem mem_applyRules (inT outT : List String) (isMig : Bool) (x : String) :
    x ∈ applyRules inT outT isMig ↔
      x ∈ allFormatNames ∧
        keepFormat (conllCond inT outT) (vocCond inT outT isMig)
          (cocoCond inT outT isMig) (brushCond inT outT) (asrCond inT outT)
          (obbCond inT outT isMig) x = true := by
  unfold applyRules
  rw [removeChain_eq_filter]
  exact List.mem_filter

/-- C1: when the project has more than one data key, `_get_supported_formats`
short-circuits and returns exactly the sequence
`[JSON, JSON_MIN, CSV, TSV, PULC]`, whatever the schema contains. -/
theorem c1_multikey_formats (dataKeys : List String) (s : Schema)
    (h : dataKeys.length > 1) :
    getSupportedFormats dataKeys s =
      [formatName .JSON, formatName .JSON_MIN, formatName .CSV,
       formatName .TSV, formatName .PULC] := by
  unfold getSupportedFormats
  rw [if_pos h]

/-- Witness for C1 at a concrete two-key project and a schema whose tags
would otherwise keep VOC. -/
theorem c1_multikey_formats_witness :
    (["image", "text"] : List String).length > 1 ∧
    getSupportedFormats ["image", "text"]
        [⟨"RectangleLabels", [⟨"Image", none, false⟩]⟩] =
      [formatName .JSON, formatName .JSON_MIN, formatName .CSV,
       formatName .TSV, formatName .PULC] :=
  ⟨by decide,
   c1_multikey_formats ["image", "text"]
     [⟨"RectangleLabels", [⟨"Image", none, false⟩]⟩] (by decide)⟩

/-- C8: the selected sequence is always a sublist of the full enumeration in
declaration order (hence a subset, ordered by the enumeration rather than by
the removal logic), and the function is pure, so a repeated call with the
same data keys and schema yields the same sequence. -/
theorem c8_sublist_deterministic (dataKeys : List String) (s : Schema) :
    (getSupportedFormats dataKeys s).Sublist allFormatNames ∧
    getSupportedFormats dataKeys s = getSupportedFormats dataKeys s := by
  refine ⟨?_, rfl⟩
  by_cases h : dataKeys.length > 1
  · unfold getSupportedFormats
    rw [if_pos h]
    decide
  · rw [getSupportedFormats_single _ _ h]
    unfold applyRules
    rw [removeChain_eq_filter]
    exact List.filter_sublist _

/-- C9: every selection keeps JSON, JSON_MIN, CSV, TSV and PULC; only
CONLL2003, VOC, COCO, YOLO, YOLO_OBB, BRUSH_TO_NUMPY, BRUSH_TO_PNG and
ASR_MANIFEST can ever be removed; consequently the result is never empty. -/
theorem c9_structural_always_present (dataKeys : List String) (s : Schema) :
    (formatName .JSON ∈ getSupportedFormats dataKeys s ∧
     formatName .JSON_MIN ∈ getSupportedFormats dataKeys s ∧
     formatName .CSV ∈ getSupportedFormats dataKeys s ∧
     formatName .TSV ∈ getSupportedFormats dataKeys s ∧
     formatName .PULC ∈ getSupportedFormats dataKeys s) ∧
    getSupportedFormats dataKeys s ≠ [] ∧
    allFormatNames.all
      (fun x => (getSupportedFormats dataKeys s).contains x ||
        removableNames.contains x) = true := by
  by_cases h : dataKeys.length > 1
  · unfold getSupportedFormats
    rw [if_pos h]
    decide
  · rw [getSupportedFormats_single _ _ h]
    unfold applyRules
    rw [removeChain_eq_filter]
    generalize conllCond (classify s).input_tag_types
      (classify s).output_tag_types = c1
    generalize vocCond (classify s).input_tag_types
      (classify s).output_tag_types (classify s).is_mig = c2
    generalize cocoCond (classify s).input_tag_types
      (classify s).output_tag_types (classify s).is_mig = c3
    generalize brushCond (classify s).input_tag_types
      (classify s).output_tag_types = c4
    generalize asrCond (classify s).input_tag_types
      (classify s).output_tag_types = c5
    generalize obbCond (classify s).input_tag_types
      (classify s).output_tag_types (classify s).is_mig = c6
    revert c1 c2 c3 c4 c5 c6
    decide

/-- C5: with a single data key, COCO is selected iff `is_mig` is false and
`Image` is an input tag type together with `RectangleLabels` or
`PolygonLabels` as output, or `Rectangle` and `Labels` are both outputs, or
`PolygonLabels` and `Labels` are both outputs; and COCO and YOLO are always
selected or dropped together. -/
theorem c5_coco_yolo_selection (dataKeys : List String) (s : Schema)
    (h : ¬ dataKeys.length > 1) :
    (formatName .COCO ∈ getSupportedFormats dataKeys s ↔
      ((classify s).is_mig = false ∧
        (("Image" ∈ (classify s).input_tag_types ∧
           ("RectangleLabels" ∈ (classify s).output_tag_types ∨
            "PolygonLabels" ∈ (classify s).output_tag_types)) ∨
         ("Rectangle" ∈ (classify s).output_tag_types ∧
          "Labels" ∈ (classify s).output_tag_types) ∨
         ("PolygonLabels" ∈ (classify s).output_tag_types ∧
          "Labels" ∈ (classify s).output_tag_types)))) ∧
    (formatName .COCO ∈ getSupportedFormats dataKeys s ↔
     formatName .YOLO ∈ getSupportedFormats dataKeys s) := by
  rw [getSupportedFormats_single _ _ h]
  constructor
  · rw [mem_applyRules, keepFormat_coco]
    have hmem : formatName AiCenterFormat.COCO ∈ allFormatNames := by decide
    simp only [hmem, true_and]
    unfold cocoCond
    cases hm : (classify s).is_mig <;> simp [hm, List.elem_iff] <;> tauto
  · rw [mem_applyRules, mem_applyRules, keepFormat_coco, keepFormat_yolo]
    have h1 : formatName AiCenterFormat.COCO ∈ allFormatNames := by decide
    have h2 : formatName AiCenterFormat.YOLO ∈ allFormatNames := by decide
    simp [h1, h2]

/-- Witness for C5 at a concrete single-key schema with an Image input and
RectangleLabels output: both conditions of the theorem instantiate and COCO
is indeed selected. -/
theorem c5_coco_yolo_selection_witness :
    (formatName .COCO ∈
        getSupportedFormats ["image"]
          [⟨"RectangleLabels", [⟨"Image", none, false⟩]⟩] ↔
      ((classify [⟨"RectangleLabels", [⟨"Image", none, false⟩]⟩]).is_mig =
          false ∧
        (("Image" ∈ (classify
              [⟨"RectangleLabels", [⟨"Image", none, false⟩]⟩]).input_tag_types ∧
           ("RectangleLabels" ∈ (classify
                [⟨"RectangleLabels",
                  [⟨"Image", none, false⟩]⟩]).output_tag_types ∨
            "PolygonLabels" ∈ (classify
                [⟨"RectangleLabels",
                  [⟨"Image", none, false⟩]⟩]).output_tag_types)) ∨
         ("Rectangle" ∈ (classify
              [⟨"RectangleLabels",
                [⟨"Image", none, false⟩]⟩]).output_tag_types ∧
          "Labels" ∈ (classify
              [⟨"RectangleLabels",
                [⟨"Image", none, false⟩]⟩]).output_tag_types) ∨
         ("PolygonLabels" ∈ (classify
              [⟨"RectangleLabels",
                [⟨"Image", none, false⟩]⟩]).output_tag_types ∧
          "Labels" ∈ (classify
              [⟨"RectangleLabels",
                [⟨"Image", none, false⟩]⟩]).output_tag_types)))) ∧
    (formatName .COCO ∈
        getSupportedFormats ["image"]
          [⟨"RectangleLabels", [⟨"Image", none, false⟩]⟩] ↔
     formatName .YOLO ∈
        getSupportedFormats ["image"]
          [⟨"RectangleLabels", [⟨"Image", none, false⟩]⟩]) :=
  c5_coco_yolo_selection ["image"]
    [⟨"RectangleLabels", [⟨"Image", none, false⟩]⟩] (by decide)

/-- C6: with a single data key, VOC is selected iff `is_mig` is false,
`Image` is an input tag type, and `RectangleLabels` is an output tag type or
`Rectangle` and `Labels` both are; at the concrete schema with
RectangleLabels output, Image input and a list-valued input, VOC, COCO and
YOLO are all absent. -/
theorem c6_voc_selection (dataKeys : List String) (s : Schema)
    (h : ¬ dataKeys.length > 1) :
    (formatName .VOC ∈ getSupportedFormats dataKeys s ↔
      ((classify s).is_mig = false ∧
        "Image" ∈ (classify s).input_tag_types ∧
        ("RectangleLabels" ∈ (classify s).output_tag_types ∨
         ("Rectangle" ∈ (classify s).output_tag_types ∧
          "Labels" ∈ (classify s).output_tag_types)))) ∧
    (formatName .VOC ∉ getSupportedFormats ["image"] migRectSchema ∧
     formatName .COCO ∉ getSupportedFormats ["image"] migRectSchema ∧
     formatName .YOLO ∉ getSupportedFormats ["image"] migRectSchema) := by
  constructor
  · rw [getSupportedFormats_single _ _ h, mem_applyRules, keepFormat_voc]
    have hmem : formatName AiCenterFormat.VOC ∈ allFormatNames := by decide
    simp only [hmem, true_and]
    unfold vocCond
    cases hm : (classify s).is_mig <;> simp [hm, List.elem_iff] <;> tauto
  · decide

/-- Witness for C6 at a concrete single-key schema with an Image input and a
RectangleLabels output and no list-valued input. -/
theorem c6_voc_selection_witness :
    (formatName .VOC ∈
        getSupportedFormats ["image"]
          [⟨"RectangleLabels", [⟨"Image", none, false⟩]⟩] ↔
      ((classify [⟨"RectangleLabels", [⟨"Image", none, false⟩]⟩]).is_mig =
          false ∧
        "Image" ∈ (classify
            [⟨"RectangleLabels", [⟨"Image", none, false⟩]⟩]).input_tag_types ∧
        ("RectangleLabels" ∈ (classify
            [⟨"RectangleLabels",
              [⟨"Image", none, false⟩]⟩]).output_tag_types ∨
         ("Rectangle" ∈ (classify
              [⟨"RectangleLabels",
                [⟨"Image", none, false⟩]⟩]).output_tag_types ∧
          "Labels" ∈ (classify
              [⟨"RectangleLabels",
                [⟨"Image", none, false⟩]⟩]).output_tag_types)))) ∧
    (formatName .VOC ∉ getSupportedFormats ["image"] migRectSchema ∧
     formatName .COCO ∉ getSupportedFormats ["image"] migRectSchema ∧
     formatName .YOLO ∉ getSupportedFormats ["image"] migRectSchema) :=
  c6_voc_selection ["image"]
    [⟨"RectangleLabels", [⟨"Image", none, false⟩]⟩] (by decide)

/-- C7: with a single data key, YOLO_OBB is selected iff `is_mig` is false
and it is not the case that `Video` is an input tag type and
`TimelineLabels` an output tag type: it is kept by default rather than by a
positive condition, but excluded on multi-value input. -/
theorem c7_yolo_obb_selection (dataKeys : List String) (s : Schema)
    (h : ¬ dataKeys.length > 1) :
    formatName .YOLO_OBB ∈ getSupportedFormats dataKeys s ↔
      ((classify s).is_mig = false ∧
        ¬("Video" ∈ (classify s).input_tag_types ∧
          "TimelineLabels" ∈ (classify s).output_tag_types)) := by
  rw [getSupportedFormats_single _ _ h, mem_applyRules, keepFormat_obb]
  have hmem : formatName AiCenterFormat.YOLO_OBB ∈ allFormatNames := by decide
  simp only [hmem, true_and]
  unfold obbCond
  cases hm : (classify s).is_mig <;> simp [hm, List.elem_iff] <;> tauto

/-- Witness for C7 at a concrete single-key schema with no tags at all:
YOLO_OBB is kept with no positive condition. -/
theorem c7_yolo_obb_selection_witness :
    formatName .YOLO_OBB ∈ getSupportedFormats ["image"] [] ↔
      ((classify []).is_mig = false ∧
        ¬("Video" ∈ (classify []).input_tag_types ∧
          "TimelineLabels" ∈ (classify []).output_tag_types)) :=
  c7_yolo_obb_selection ["image"] [] (by decide)

/-- C3: the custom serializer performs exactly one directory creation and
one file write; the file is `result.txt` inside the output directory and its
contents are the spec-prescribed text (one `<image>TAB<prettified choice>`
line per record, newline-joined, no trailing newline); at the single record
`{"input": {"image": "a.jpg"}, "output": {"choice": ["cat", "dog"]}}` the
contents are exactly `a.jpg\tcat,dog`. -/
theorem c3_pulc_serialization (records : List AnnotationRecord)
    (dir : String) :
    convert_to_pulc records dir =
      [Effect.ensureDir dir,
       Effect.writeFile (dir ++ "/" ++ "result.txt")
         (pulcSpecContents records)] ∧
    convert_to_pulc [⟨"a.jpg", ChoiceValue.listVal ["cat", "dog"]⟩] "out" =
      [Effect.ensureDir "out",
       Effect.writeFile "out/result.txt" "a.jpg\tcat,dog"] := by
  constructor
  · rfl
  · rfl

/-- C10: `convert` called with any non-string format (an enumeration member)
raises `UnboundLocalError` on reading `_format` before either dispatch
branch: no effect is performed, neither the PULC serializer nor the library
delegation is reached. -/
theorem c10_nonstring_unbound_local (f : AiCenterFormat)
    (records : List AnnotationRecord) (dir : String) (isDir : Bool) :
    (convert records dir (FormatArg.enum f) isDir).effects = [] ∧
    (convert records dir (FormatArg.enum f) isDir).error =
      some (ConvertError.unboundLocal "_format") :=
  ⟨rfl, rfl⟩

/-- C2: a string format name that resolves to no member of the extended
enumeration makes `convert` raise the invalid-format error with no
filesystem action at all, while a name that does resolve never raises that
error. -/
theorem c2_invalid_format (s : String) (records : List AnnotationRecord)
    (dir : String) (isDir : Bool) :
    ((∀ f : AiCenterFormat, formatName f ≠ s) →
      (convert records dir (FormatArg.str s) isDir).error =
          some (ConvertError.invalidFormat ("Invalid value: " ++ s)) ∧
      (convert records dir (FormatArg.str s) isDir).effects = []) ∧
    ((∃ f : AiCenterFormat, formatName f = s) →
      ∀ m, (convert records dir (FormatArg.str s) isDir).error ≠
        some (ConvertError.invalidFormat m)) := by
  constructor
  · intro h
    have hnone : allFormats.find? (fun f => formatName f == s) = none := by
      rw [List.find?_eq_none]
      intro f _
      simp [h f]
    simp [convert, from_string, hnone]
  · rintro ⟨f, rfl⟩ m
    have hsome :
        (allFormats.find? (fun g => formatName g == formatName f)).isSome := by
      rw [List.find?_isSome]
      exact ⟨f, mem_allFormats f, by simp⟩
    rcases Option.isSome_iff_exists.mp hsome with ⟨g, hg⟩
    simp only [convert, from_string, hg]
    split <;> simp

/-- Witness for C2: the unresolvable name raises the error with an empty
effect trace, and the resolvable name JSON does not raise it. -/
theorem c2_invalid_format_witness :
    ((convert [] "out" (FormatArg.str "not_a_real_format") true).error =
        some (ConvertError.invalidFormat
          ("Invalid value: " ++ "not_a_real_format")) ∧
     (convert [] "out" (FormatArg.str "not_a_real_format") true).effects =
        []) ∧
    (convert [] "out" (FormatArg.str "JSON") true).error ≠
      some (ConvertError.invalidFormat "Invalid value: JSON") :=
  ⟨(c2_invalid_format "not_a_real_format" [] "out" true).1
      (by intro f; cases f <;> decide),
   (c2_invalid_format "JSON" [] "out" true).2 ⟨AiCenterFormat.JSON, rfl⟩
      "Invalid value: JSON"⟩

/-- C4 counterexample: at the schema whose only input is a Text tag with
`valueType="url"`, classification emits exactly one diagnostic and it is
error-level, not warning-level — the source calls `logger.error`, so the
claim's warning-level diagnostic never appears. -/
theorem c4_counterexample_no_warning :
    (classify urlSchema).diags.length = 1 ∧
    (classify urlSchema).diags.all
      (fun d => !(d.level == LogLevel.warning)) = true := by
  decide

/-- C4 (amended): for every schema containing a Text input with
`valueType="url"`, classification emits an error-level diagnostic, the call
completes, and `input_tag_types` holds exactly the types of the non-skipped
inputs — the Text-url inputs are skipped, all others are processed
normally. -/
theorem c4_url_input_skipped (s : Schema)
    (h : ∃ o ∈ s, ∃ i ∈ o.inputs,
      i.type = "Text" ∧ i.valueType = some "url") :
    (∃ d ∈ (classify s).diags, d.level = LogLevel.error) ∧
    ∀ x : String, x ∈ (classify s).input_tag_types ↔
      ∃ o ∈ s, ∃ i ∈ o.inputs, isSkippedInput i = false ∧ i.type = x := by
  constructor
  · refine ⟨urlDiag, classify_urlDiag s ?_, rfl⟩
    rcases h with ⟨o, ho, i, hi, ht, hv⟩
    exact ⟨o, ho, i, hi, by simp [isSkippedInput, ht, hv]⟩
  · intro x
    exact classify_input_mem s x

/-- Witness for C4 at the concrete schema with one skipped Text-url input
and one ordinary Image input. -/
theorem c4_url_input_skipped_witness :
    (∃ d ∈ (classify urlMixedSchema).diags, d.level = LogLevel.error) ∧
    ("Text" ∈ (classify urlMixedSchema).input_tag_types ↔
      ∃ o ∈ urlMixedSchema, ∃ i ∈ o.inputs,
        isSkippedInput i = false ∧ i.type = "Text") :=
  ⟨(c4_url_input_skipped urlMixedSchema (by decide)).1,
   (c4_url_input_skipped urlMixedSchema (by decide)).2 "Text"⟩

end AiCenter
